import Mathlib

/-!
Verification development for the clip-to-movie identification pipeline
(Supabase edge function `identify-movie`).  Text values are embedded as
`List Char`; the JavaScript string operations used by the source are
translated to explicit list functions.  External collaborators (YouTube
Data API, the generative gateway, TMDB) are modelled as environment
records holding the single response each fetch would produce for the
request being processed, and `fetch`/JSON failures are modelled as
explicit outcome constructors.
-/

namespace ClipMovie

/-- Shorthand for embedded JavaScript strings. -/
abbrev Str := List Char

/-! ## Identifier Extractor (`extractVideoId`)

The source applies two regexes in order:
`/(?:youtube\.com\/watch\?v=|youtu\.be\/|youtube\.com\/embed\/|youtube\.com\/v\/)([^&\n?#]+)/`
and `/youtube\.com\/shorts\/([^&\n?#]+)/`, returning the first capture
group of the first regex that matches (`String.match` finds the leftmost
match; alternatives are tried in order at each position).  The capture
group is the maximal nonempty run of characters other than `&`, `\n`,
`?`, `#` following the alternative's literal text. -/

/-- Characters that terminate the captured identifier (`[^&\n?#]`). -/
def delim (c : Char) : Bool := c = '&' || c = '\n' || c = '?' || c = '#'

/-- Try a single regex alternative at the current position: the literal
`p` must be a prefix, then the capture is the maximal nonempty run of
non-delimiter characters. -/
def tryAlt (p s : Str) : Option Str :=
  match p.isPrefixOf s with
  | false => none
  | true =>
    match (s.drop p.length).takeWhile (fun c => !(delim c)) with
    | [] => none
    | cap => some cap

/-- Try the alternatives of one regex, in order, at the current position. -/
def matchAlts (alts : List Str) (s : Str) : Option Str :=
  match alts with
  | [] => none
  | p :: ps =>
    match tryAlt p s with
    | some cap => some cap
    | none => matchAlts ps s

/-- Leftmost-match scan of one regex over the whole string. -/
def scanFor (alts : List Str) : Str → Option Str
  | [] => matchAlts alts []
  | c :: rest =>
    match matchAlts alts (c :: rest) with
    | some cap => some cap
    | none => scanFor alts rest

/-- Alternatives of the first regex, in source order. -/
def pattern1Alts : List Str :=
  ["youtube.com/watch?v=".data, "youtu.be/".data,
   "youtube.com/embed/".data, "youtube.com/v/".data]

/-- Alternatives of the second regex. -/
def pattern2Alts : List Str := ["youtube.com/shorts/".data]

/-- `extractVideoId` from the source: try the first regex over the whole
URL, then the second; `none` models the `null` not-found signal. -/
def extractVideoId (url : Str) : Option Str :=
  match scanFor pattern1Alts url with
  | some v => some v
  | none => scanFor pattern2Alts url

/-- Decidable rendering of "the string contains (an occurrence of) one of
the URL patterns the code recognizes" — all five alternatives of the
first regex plus the shorts pattern: some position carries one of the
literal triggers followed by at least one non-delimiter character. -/
def containsUrlPattern : Str → Bool
  | [] => (matchAlts pattern1Alts []).isSome || (matchAlts pattern2Alts []).isSome
  | c :: rest =>
    (matchAlts pattern1Alts (c :: rest)).isSome ||
    (matchAlts pattern2Alts (c :: rest)).isSome ||
    containsUrlPattern rest

/-- The four URL patterns the specification names (standard watch link,
shortened youtu.be link, embed link, shorts link) — without the code's
fifth `youtube.com/v/` alternative. -/
def namedPatternAlts : List Str :=
  ["youtube.com/watch?v=".data, "youtu.be/".data, "youtube.com/embed/".data,
   "youtube.com/shorts/".data]

/-- Decidable rendering of "the string contains one of the four named
URL forms": some position carries one of the four named triggers
followed by at least one non-delimiter character. -/
def containsNamedUrlPattern : Str → Bool
  | [] => (matchAlts namedPatternAlts []).isSome
  | c :: rest => (matchAlts namedPatternAlts (c :: rest)).isSome || containsNamedUrlPattern rest

/-! ## Signal Extractor (`extractKeywordsFromComments`)

Embeds the comment keyword miner of `part_002` (lines 205–247).  The
`index.ts` variant differs only by a third regex
`/(?:love this scene|best scene|favorite scene|iconic scene)/gi` that has
no capture group: `match[1]` is always `undefined` there, so its loop
body never adds a keyword and both variants compute the same output.

Heuristic 1 runs the two movie-phrase regexes over the lower-cased
concatenation of all comments with `matchAll` (global, leftmost-first,
non-overlapping) semantics.  Heuristic 2 scans the original-case text
for Title-Case runs `\b([A-Z][a-z]+(?:\s+[A-Z][a-z]+)*)\b` and keeps
phrases occurring at least twice.  The global scans are embedded
structurally with a skip counter (the number of characters of the
previous match still to be skipped), which is exactly the `lastIndex`
bookkeeping of a sticky JavaScript regex. -/

/-- JavaScript `\s` restricted to the ASCII whitespace characters. -/
def isWs (c : Char) : Bool :=
  c = ' ' || c = '\t' || c = '\n' || c = '\r' || c = '\x0b' || c = '\x0c'

def isQuote (c : Char) : Bool := c = '"' || c = '\''

/-- The character class excluded from the first regex's capture group
`[^"'\n.!?]`. -/
def exclCap (c : Char) : Bool := isQuote c || c = '\n' || c = '.' || c = '!' || c = '?'

/-- Length contributed by the optional closing quote `["']?`. -/
def closeQ : Str → Nat
  | c :: _ => if isQuote c then 1 else 0
  | [] => 0

/-- Attempt the suffix `\s+["']?([^"'\n.!?]+)["']?` of the first movie
regex with exactly `k` whitespace characters consumed; returns the
capture and the number of characters consumed from `t`. -/
def tryTailAt (t : Str) (k : Nat) : Option (Str × Nat) :=
  match t.drop k with
  | [] => none
  | c :: rest =>
    if isQuote c then
      match rest.takeWhile (fun x => !(exclCap x)) with
      | [] => none
      | cap => some (cap, k + 1 + cap.length + closeQ (rest.drop cap.length))
    else
      match (c :: rest).takeWhile (fun x => !(exclCap x)) with
      | [] => none
      | cap => some (cap, k + cap.length + closeQ ((c :: rest).drop cap.length))

/-- Greedy-with-backtracking `\s+`: try the longest whitespace run
first, shrinking on failure, never below one character. -/
def tryTailDown (t : Str) : Nat → Option (Str × Nat)
  | 0 => none
  | k + 1 =>
    match tryTailAt t (k + 1) with
    | some r => some r
    | none => tryTailDown t k

def tryTail (t : Str) : Option (Str × Nat) :=
  tryTailDown t (t.takeWhile isWs).length

/-- Alternatives of `(?:this is from|this movie is|the movie|from the film|scene from)`,
in source order (the text is already lower-cased, making `/i` moot). -/
def litsA : List Str :=
  ["this is from".data, "this movie is".data, "the movie".data,
   "from the film".data, "scene from".data]

/-- Try the first movie regex at the current position: alternatives in
order, each followed by the whitespace/quote/capture tail. -/
def tryLitsA : List Str → Str → Option (Str × Nat)
  | [], _ => none
  | l :: ls, t =>
    if l.isPrefixOf t then
      match tryTail (t.drop l.length) with
      | some (cap, k) => some (cap, l.length + k)
      | none => tryLitsA ls t
    else tryLitsA ls t

/-- Global scan of the first movie regex.  The `Nat` argument is the
number of characters of the previous match still to skip (starts at 0). -/
def scanA : Str → Nat → List Str
  | [], _ => []
  | _ :: rest, k + 1 => scanA rest k
  | c :: rest, 0 =>
    match tryLitsA litsA (c :: rest) with
    | some (cap, consumed) => cap :: scanA rest (consumed - 1)
    | none => scanA rest 0

/-- Try the second movie regex `["']([^"']+)["']\s+(?:movie|film)` at
the current position.  The capture is the maximal nonempty quote-free
run; shrinking it can never expose a closing quote, and the words
`movie`/`film` start with non-whitespace, so no other backtracking can
succeed. -/
def tryB (t : Str) : Option (Str × Nat) :=
  match t with
  | [] => none
  | c :: rest =>
    if isQuote c then
      match rest.takeWhile (fun x => !(isQuote x)) with
      | [] => none
      | cap =>
        match rest.drop cap.length with
        | [] => none
        | c2 :: rest2 =>
          if isQuote c2 then
            match rest2.takeWhile isWs with
            | [] => none
            | w =>
              if "movie".data.isPrefixOf (rest2.drop w.length) then
                some (cap, 1 + cap.length + 1 + w.length + 5)
              else if "film".data.isPrefixOf (rest2.drop w.length) then
                some (cap, 1 + cap.length + 1 + w.length + 4)
              else none
          else none
    else none

/-- Global scan of the second movie regex. -/
def scanB : Str → Nat → List Str
  | [], _ => []
  | _ :: rest, k + 1 => scanB rest k
  | c :: rest, 0 =>
    match tryB (c :: rest) with
    | some (cap, consumed) => cap :: scanB rest (consumed - 1)
    | none => scanB rest 0

def isUpperA (c : Char) : Bool := 'A' ≤ c && c ≤ 'Z'

def isLowerA (c : Char) : Bool := 'a' ≤ c && c ≤ 'z'

/-- JavaScript word character (`\w`), deciding `\b` boundaries. -/
def isWordC (c : Char) : Bool :=
  isUpperA c || isLowerA c || ('0' ≤ c && c ≤ '9') || c = '_'

/-- Maximal run of groups `(?:\s+[A-Z][a-z]+)*`.  Each step consumes at
least two characters, so fuel equal to the text length can never be
exhausted before the text is; the fuel only makes the recursion
structural. -/
def capsGroupsF : Nat → Str → List Str
  | 0, _ => []
  | fuel + 1, t =>
    match t.takeWhile isWs with
    | [] => []
    | w :: ws' =>
      match t.drop (w :: ws').length with
      | [] => []
      | c :: rest =>
        if isUpperA c then
          match rest.takeWhile isLowerA with
          | [] => []
          | l :: low' =>
            ((w :: ws') ++ c :: l :: low') :: capsGroupsF fuel (rest.drop (l :: low').length)
        else []

def capsGroups (t : Str) : List Str := capsGroupsF t.length t

/-- Try `([A-Z][a-z]+(?:\s+[A-Z][a-z]+)*)\b` at the current position
(the leading `\b` is checked by the caller).  If the character after the
greedy match is a word character the trailing `\b` fails; dropping the
last group (whose leading whitespace then provides the boundary) is the
only backtracking that can succeed, and with no group to drop the
position fails, because shrinking a `[a-z]+` run always leaves a
letter-letter junction. -/
def capsAt : Str → Option (Str × Nat)
  | [] => none
  | c :: rest =>
    if isUpperA c then
      match rest.takeWhile isLowerA with
      | [] => none
      | l :: low' =>
        let w0 : Str := c :: l :: low'
        let t1 := rest.drop (l :: low').length
        let gs := capsGroups t1
        let full := w0 ++ gs.flatten
        match t1.drop gs.flatten.length with
        | [] => some (full, full.length)
        | c2 :: _ =>
          if isWordC c2 then
            match gs with
            | [] => none
            | _ =>
              let full' := w0 ++ gs.dropLast.flatten
              some (full', full'.length)
          else some (full, full.length)
    else none

/-- Global scan for Title-Case phrases.  The `Bool` records whether the
previous character is a word character (for the leading `\b`); the `Nat`
is the skip counter of the previous match. -/
def scanCaps : Bool → Str → Nat → List Str
  | _, [], _ => []
  | _, c :: rest, k + 1 => scanCaps (isWordC c) rest k
  | prevWord, c :: rest, 0 =>
    if prevWord then scanCaps (isWordC c) rest 0
    else
      match capsAt (c :: rest) with
      | some (cap, consumed) => cap :: scanCaps true rest (consumed - 1)
      | none => scanCaps (isWordC c) rest 0

/-- JavaScript `String.prototype.trim` (ASCII whitespace). -/
def trimWs (s : Str) : Str := ((s.dropWhile isWs).reverse.dropWhile isWs).reverse

/-- Loop body applied to each `match[1]`: trim, truncate to 50
characters, keep when longer than 2. -/
def processedCap (cap : Str) : Option Str :=
  let cleaned := (trimWs cap).take 50
  if 2 < cleaned.length then some cleaned else none

/-- `Set.add`: insertion-ordered, deduplicating. -/
def addKey (ks : List Str) (k : Str) : List Str :=
  if ks.contains k then ks else ks ++ [k]

/-- `Map.set(p, (get(p) || 0) + 1)`: first-insertion order, in-place bump. -/
def bump (m : List (Str × Nat)) (p : Str) : List (Str × Nat) :=
  if m.any (fun q => q.1 == p) then m.map (fun q => if q.1 == p then (q.1, q.2 + 1) else q)
  else m ++ [(p, 1)]

def commonWords : List Str :=
  ["The".data, "This".data, "That".data, "What".data, "When".data, "Where".data,
   "How".data, "Why".data, "I".data, "You".data, "He".data, "She".data, "It".data,
   "We".data, "They".data, "And".data, "But".data, "Or".data]

/-- Count Title-Case phrases longer than 3 characters that are not
common function words. -/
def phraseCounts (ps : List Str) : List (Str × Nat) :=
  ps.foldl
    (fun m p =>
      if 3 < p.length then (if commonWords.contains p then m else bump m p) else m) []

/-- `extractKeywordsFromComments` from the source: phrase-pattern
matches over the lower-cased joined text, then Title-Case phrases
occurring at least twice (lower-cased), unioned in insertion order into
a set and truncated to 10. -/
def extractKeywordsFromComments (comments : List Str) : List Str :=
  let allText := (List.intercalate [' '] comments).map Char.toLower
  let fullText := List.intercalate [' '] comments
  let kws1 := ((scanA allText 0 ++ scanB allText 0).filterMap processedCap).foldl addKey []
  let counts := phraseCounts (scanCaps false fullText 0)
  let kws2 := counts.foldl
    (fun ks q => if 2 ≤ q.2 then addKey ks (q.1.map Char.toLower) else ks) kws1
  kws2.take 10

/-! ## Candidate Ranker (`identifyMoviesWithAI`)

The HTTP transport and JSON parsing of the generative gateway are
environment boundaries: `AIEnv` carries the response status of the
single `fetch` the source performs, and `content` models
`data.choices?.[0]?.message?.content` (`none` when absent), whose
`parsed` field models the result of `JSON.parse` after stripping an
optional code fence (`none` when parsing throws).  The source performs
no validation of the parsed value: `result.matches` and
`result.detailedReasoning` are returned as-is. -/

structure CandidateMatch where
  movieTitle : Str
  confidence : Int
  reasons : List Str
deriving DecidableEq

structure RankResult where
  /-- source field name: `matches` (a Lean keyword) -/
  matches' : List CandidateMatch
  detailedReasoning : Str
deriving DecidableEq

inductive RankError
  | noApiKey | rateLimit | billing | generic | noContent | parseError
deriving DecidableEq

/-- `error.message` of each throw site.  The `parseError` message is the
engine-specific `SyntaxError` text of `JSON.parse`, modelled by a fixed
placeholder (no claim inspects it). -/
def RankError.message : RankError → Str
  | .noApiKey => "LOVABLE_API_KEY is not configured".data
  | .rateLimit => "Rate limit exceeded. Please try again in a moment.".data
  | .billing => "AI service payment required. Please check your account.".data
  | .generic => "Failed to identify movie with AI".data
  | .noContent => "No response from AI".data
  | .parseError => "Unexpected token in JSON".data

structure AIContent where
  parsed : Option RankResult
deriving DecidableEq

structure AIEnv where
  hasKey : Bool
  httpStatus : Nat
  content : Option AIContent
deriving DecidableEq

/-- `Response.ok`: status in the 200–299 range. -/
def respOk (s : Nat) : Bool := decide (200 ≤ s ∧ s < 300)

/-- `identifyMoviesWithAI` from the source: key check, status-code error
mapping (429 rate limit, 402 billing, other non-success generic), then
content extraction and parse; the parsed matches and narrative are
passed through unvalidated. -/
def identifyMoviesWithAI (env : AIEnv) : Except RankError RankResult :=
  if !env.hasKey then .error .noApiKey
  else if !(respOk env.httpStatus) then
    (if env.httpStatus == 429 then .error .rateLimit
     else if env.httpStatus == 402 then .error .billing
     else .error .generic)
  else
    match env.content with
    | none => .error .noContent
    | some c =>
      match c.parsed with
      | none => .error .parseError
      | some p => .ok p

/-- A syntactically well-formed gateway reply violating the prompt's
contract: one candidate, confidence 150, five reasons. -/
def badRankPayload : RankResult :=
  { matches' := [{ movieTitle := "Some Movie".data
                   confidence := 150
                   reasons := ["r1".data, "r2".data, "r3".data, "r4".data, "r5".data] }]
    detailedReasoning := "narrative text".data }

/-- A reply obeying the prompt's contract (3 candidates, confidence in
[1,100] summing to 100, 2–4 reasons each, best first). -/
def candSW : CandidateMatch :=
  { movieTitle := "Star Wars".data
    confidence := 80
    reasons := ["title match".data, "keywords".data] }

def candST : CandidateMatch :=
  { movieTitle := "Star Trek".data
    confidence := 15
    reasons := ["space scene".data, "era".data] }

def candDune : CandidateMatch :=
  { movieTitle := "Dune".data
    confidence := 5
    reasons := ["desert".data, "tone".data] }

def goodRankPayload : RankResult :=
  { matches' := [candSW, candST, candDune]
    detailedReasoning := "The title names the film directly.".data }

/-! ## Catalog Resolver (`getMovieFromTMDB`)

`TMDBEnv` models the catalog service: `hasKey` is the presence of
`TMDB_API_KEY`, `search` and `details` give the outcome of the two
fetches.  `FetchR.threw` models a rejection of `fetch` itself (or of
`.json()`), which the source does NOT catch in this function;
`FetchR.resp ok payload` models a completed response.  A search payload
models `searchData.results` with a missing field mapped to `[]`. -/

structure MovieResult where
  title : Str
  year : Str
  poster : Str
  plot : Str
  rating : Str
  runtime : Str
  genres : List Str
  trailer : Option Str
  tmdbId : Int
  aiReasoning : Str
deriving DecidableEq

structure VideoEntry where
  type : Str
  site : Str
  key : Str
deriving DecidableEq

/-- The detail record; `Option` marks fields the JSON may lack, and the
JavaScript truthiness checks of the source are modelled explicitly
(`0`, the empty string and `undefined` are falsy; `NaN` does not arise
for the embedded rationals). -/
structure TMDBDetails where
  title : Str
  release_date : Option Str
  poster_path : Option Str
  overview : Option Str
  vote_average : Option Rat
  runtime : Option Nat
  genres : Option (List Str)
  videos : Option (List VideoEntry)
  id : Int
deriving DecidableEq

/-- `Number.prototype.toFixed(1)` for the nonnegative ratings that
occur, rounding half away from zero (binary floating-point artifacts
are not modelled). -/
def toFixed1 (v : Rat) : Str :=
  let n : Nat := (v * 10 + 1 / 2).floor.toNat
  (toString (n / 10)).data ++ '.' :: (toString (n % 10)).data

/-- The formatting block of `getMovieFromTMDB` building a `MovieResult`
from a fetched detail record (trailer selection, poster URL, falsy-aware
defaults). -/
def buildMovieResult (d : TMDBDetails) : MovieResult :=
  { title := d.title
    year :=
      match d.release_date with
      | some rd => if rd.isEmpty then "Unknown".data else rd.takeWhile (fun c => !(c == '-'))
      | none => "Unknown".data
    poster :=
      match d.poster_path with
      | some p => if p.isEmpty then [] else "https://image.tmdb.org/t/p/w500".data ++ p
      | none => []
    plot :=
      match d.overview with
      | some o => if o.isEmpty then "No plot available.".data else o
      | none => "No plot available.".data
    rating :=
      match d.vote_average with
      | some v => if v == 0 then "N/A".data else toFixed1 v
      | none => "N/A".data
    runtime :=
      match d.runtime with
      | some n => if n == 0 then "Unknown".data else (toString n).data ++ " min".data
      | none => "Unknown".data
    genres := d.genres.getD []
    trailer :=
      match d.videos with
      | none => none
      | some vs =>
        match vs.find? (fun v => v.type == "Trailer".data && v.site == "YouTube".data) with
        | some v => some ("https://www.youtube.com/watch?v=".data ++ v.key)
        | none => none
    tmdbId := d.id
    aiReasoning := [] }

inductive FetchR (α : Type) where
  | threw
  | resp (ok : Bool) (payload : α)

structure SearchHit where
  id : Int
deriving DecidableEq

structure TMDBEnv where
  hasKey : Bool
  search : Str → FetchR (List SearchHit)
  details : Int → FetchR TMDBDetails

inductive TmdbError
  | noKey | exn
deriving DecidableEq

/-- `error.message`: the missing-key throw has a fixed message; a
rejected fetch carries an engine-specific network-error message,
modelled by a fixed placeholder (no claim inspects it). -/
def TmdbError.message : TmdbError → Str
  | .noKey => "TMDB_API_KEY is not configured".data
  | .exn => "fetch failed".data

/-- `getMovieFromTMDB` from the source: throw when the key is missing,
degrade to `null` on a non-ok search response, empty results, or a
non-ok details response, otherwise build the result from the first
search hit's details.  Rejections of the fetches themselves are not
caught here and propagate (`.error .exn`). -/
def getMovieFromTMDB (env : TMDBEnv) (movieTitle : Str) :
    Except TmdbError (Option MovieResult) :=
  if !env.hasKey then .error .noKey
  else
    match env.search movieTitle with
    | .threw => .error .exn
    | .resp false _ => .ok none
    | .resp true [] => .ok none
    | .resp true (hit :: _) =>
      match env.details hit.id with
      | .threw => .error .exn
      | .resp false _ => .ok none
      | .resp true d => .ok (some (buildMovieResult d))

/-- A detail record with rating 0 and runtime 0 present (not absent). -/
def zeroDetails : TMDBDetails :=
  { title := "Some Film".data
    release_date := some "1999-03-31".data
    poster_path := some "/p.jpg".data
    overview := some "A film.".data
    vote_average := some 0
    runtime := some 0
    genres := some ["Action".data]
    videos := some []
    id := 603 }

/-! ## Enrichment Fetchers (`getStreamingProviders`, `getSimilarMovies`)

`ProvidersResp.ok = false` covers both a non-ok HTTP response and a
rejection of the fetch or of `.json()` — the source wraps everything in
`try/catch` and returns `[]` for all of them.  `region` models
`data.results?.US || Object.values(data.results || {})[0]`, i.e. the
already-selected region record (`none` when no region is available). -/

structure ProviderEntry where
  provider_name : Str
  logo_path : Str
deriving DecidableEq

structure RegionData where
  flatrate : Option (List ProviderEntry)
  rent : Option (List ProviderEntry)
  link : Option Str
deriving DecidableEq

inductive PType
  | subscription | rent | buy
deriving DecidableEq

structure StreamingProvider where
  name : Str
  logo : Str
  link : Str
  type : PType
deriving DecidableEq

structure ProvidersResp where
  ok : Bool
  region : Option RegionData
deriving DecidableEq

/-- Loop body of the provider loops: push unless the name was seen; the
`seen` set of the source is exactly the set of names already pushed. -/
def addProvider (link : Str) (ty : PType) (acc : List StreamingProvider)
    (p : ProviderEntry) : List StreamingProvider :=
  if (acc.map (fun q => q.name)).contains p.provider_name then acc
  else acc ++ [{ name := p.provider_name
                 logo := "https://image.tmdb.org/t/p/original".data ++ p.logo_path
                 link := link
                 type := ty }]

/-- The provider assembly for an available region: up to 4 flatrate
entries as subscription, then up to 2 rent entries, deduplicated by
name, capped at 6 in total. -/
def buildProviders (rd : RegionData) : List StreamingProvider :=
  let link := rd.link.getD []
  let acc1 := ((rd.flatrate.getD []).take 4).foldl (addProvider link .subscription) []
  let acc2 := ((rd.rent.getD []).take 2).foldl (addProvider link .rent) acc1
  acc2.take 6

/-- `getStreamingProviders` from the source: missing key, non-ok or
thrown fetch, or missing region data all yield `[]`. -/
def getStreamingProviders (hasKey : Bool) (resp : ProvidersResp) : List StreamingProvider :=
  if !hasKey then []
  else if !resp.ok then []
  else
    match resp.region with
    | none => []
    | some rd => buildProviders rd

structure SimilarRaw where
  id : Int
  title : Str
  poster_path : Option Str
  release_date : Option Str
deriving DecidableEq

structure SimilarResp where
  ok : Bool
  results : List SimilarRaw
deriving DecidableEq

structure SimilarMovie where
  id : Int
  title : Str
  poster : Str
  year : Str
  genres : List Str
deriving DecidableEq

/-- `getSimilarMovies` from the source: fail-soft to `[]`, else the
first 6 results mapped to the compact shape (genre info not included in
the similar endpoint). -/
def getSimilarMovies (hasKey : Bool) (resp : SimilarResp) : List SimilarMovie :=
  if !hasKey then []
  else if !resp.ok then []
  else
    (resp.results.take 6).map (fun m =>
      { id := m.id
        title := m.title
        poster :=
          match m.poster_path with
          | some p => if p.isEmpty then [] else "https://image.tmdb.org/t/p/w200".data ++ p
          | none => []
        year :=
          match m.release_date with
          | some rd => if rd.isEmpty then "Unknown".data else rd.takeWhile (fun c => !(c == '-'))
          | none => "Unknown".data
        genres := [] })

/-- A region record with duplicate provider names across the lists. -/
def sampleRegion : RegionData :=
  { flatrate := some [⟨"Netflix".data, "/n.png".data⟩, ⟨"Hulu".data, "/h.png".data⟩,
                      ⟨"Netflix".data, "/n2.png".data⟩, ⟨"Max".data, "/m.png".data⟩,
                      ⟨"Peacock".data, "/p.png".data⟩]
    rent := some [⟨"Amazon".data, "/a.png".data⟩, ⟨"Netflix".data, "/n3.png".data⟩,
                  ⟨"Apple".data, "/ap.png".data⟩]
    link := some "https://www.themoviedb.org/movie/603/watch".data }

def sampleProvResp : ProvidersResp := { ok := true, region := some sampleRegion }

def failedProvResp : ProvidersResp := { ok := false, region := none }

/-! ## Metadata Aggregator (`getYouTubeMetadata`)

`YTEnv` carries the outcome of each fetch the aggregator can issue for
the requested video.  `Fetch.threw` models a rejected `fetch`/`.json()`
(caught by the function's `try/catch`), `Fetch.notOk` a completed
non-ok response, `Fetch.ok` a parsed payload.  A `videos` payload is
`videoData.items` (missing field mapped to `[]`; the source throws
"Video not found" on an empty list and catches its own throw into the
fallback).  `captions` carries the caption tracks' language codes and
`comments` the top-level comment texts. -/

structure YouTubeMetadata where
  title : Str
  description : Str
  thumbnail : Str
  channelTitle : Str
  publishedAt : Str
  captionsAvailable : Bool
  captionsText : Str
  commentKeywords : List Str
deriving DecidableEq

inductive Fetch (α : Type) where
  | threw
  | notOk
  | ok (val : α)

structure Snippet where
  title : Option Str
  description : Option Str
  channelTitle : Option Str
  publishedAt : Option Str
  thumbMaxres : Option Str
  thumbHigh : Option Str
  thumbMedium : Option Str
  thumbDefault : Option Str
deriving DecidableEq

structure OEmbedData where
  title : Option Str
  author_name : Option Str
deriving DecidableEq

structure YTEnv where
  apiKey : Bool
  videos : Fetch (List Snippet)
  captions : Fetch (List Str)
  comments : Fetch (List Str)
  oembed : Fetch OEmbedData

/-- The conventionally-constructed thumbnail URL. -/
def thumbUrl (videoId : Str) : Str :=
  "https://img.youtube.com/vi/".data ++ videoId ++ "/maxresdefault.jpg".data

/-- JavaScript `a || d` for an optional string `a`: `undefined` and the
empty string fall through to the default. -/
def orStr (o : Option Str) (d : Str) : Str :=
  match o with
  | some s => if s.isEmpty then d else s
  | none => d

/-- `fetchCaptions`: any failure or empty track list reports
unavailable; otherwise availability plus a language summary.  (The
`index.ts` variant computes an unused `englishCaption` and produces the
same string in both of its branches.) -/
def fetchCaptions (env : YTEnv) : Bool × Str :=
  match env.captions with
  | .ok (l :: ls) =>
    (true, "[Captions available in ".data ++ List.intercalate ", ".data (l :: ls) ++ "]".data)
  | _ => (false, [])

/-- `fetchCommentKeywords`: any failure or empty comment list yields no
keywords; otherwise the Signal Extractor runs on the comment texts. -/
def fetchCommentKeywords (env : YTEnv) : List Str :=
  match env.comments with
  | .ok (t :: ts) => extractKeywordsFromComments (t :: ts)
  | _ => []

/-- `getYouTubeMetadataFallback`: the public oEmbed endpoint recovers
title and author; description, captions and keywords are empty; on any
failure the terminal all-empty record with only the constructed
thumbnail URL. -/
def getYouTubeMetadataFallback (env : YTEnv) (videoId : Str) : YouTubeMetadata :=
  match env.oembed with
  | .ok d =>
    { title := orStr d.title []
      description := []
      thumbnail := thumbUrl videoId
      channelTitle := orStr d.author_name []
      publishedAt := []
      captionsAvailable := false
      captionsText := []
      commentKeywords := [] }
  | _ =>
    { title := []
      description := []
      thumbnail := thumbUrl videoId
      channelTitle := []
      publishedAt := []
      captionsAvailable := false
      captionsText := []
      commentKeywords := [] }

/-- `getYouTubeMetadata`: the credentialed primary path with thumbnail
quality fallback chain and the two auxiliary fetches; every failure of
the primary path (missing key, rejected or non-ok video fetch, empty
item list) degrades to the oEmbed fallback. -/
def getYouTubeMetadata (env : YTEnv) (videoId : Str) : YouTubeMetadata :=
  if !env.apiKey then getYouTubeMetadataFallback env videoId
  else
    match env.videos with
    | .threw => getYouTubeMetadataFallback env videoId
    | .notOk => getYouTubeMetadataFallback env videoId
    | .ok [] => getYouTubeMetadataFallback env videoId
    | .ok (s :: _) =>
      { title := orStr s.title []
        description := orStr s.description []
        thumbnail := orStr s.thumbMaxres (orStr s.thumbHigh (orStr s.thumbMedium
          (orStr s.thumbDefault (thumbUrl videoId))))
        channelTitle := orStr s.channelTitle []
        publishedAt := orStr s.publishedAt []
        captionsAvailable := (fetchCaptions env).1
        captionsText := (fetchCaptions env).2
        commentKeywords := fetchCommentKeywords env }

/-- An environment in which both the primary path and the fallback fail. -/
def deadYTEnv : YTEnv :=
  { apiKey := true
    videos := .notOk
    captions := .threw
    comments := .threw
    oembed := .threw }

/-! ## Pipeline Orchestrator (`serve` handler of `part_002`)

`PipelineEnv` bundles the per-request environments of the collaborators.
Catalog resolution of the ranked candidates is a `Promise.all` over
independent calls with no shared mutable state; its embedding is a pure
sequence (`resolveAll`) whose first error models the rejection of
`Promise.all`, followed by the order-preserving `filter` of non-null
results.  The transport wrapper (`req.json()`, CORS, OPTIONS) is out of
scope per the specification; `videoUrl` models the request field
(`none` = absent). -/

structure MovieMatch where
  movie : MovieResult
  confidence : Int
  matchReasons : List Str
deriving DecidableEq

inductive Body where
  | err (message : Str) (aiReasoning : Option Str)
  | success (movie : MovieResult) (videoThumbnail : Str) (matches' : List MovieMatch)
      (streamingProviders : List StreamingProvider) (similarMovies : List SimilarMovie)
      (detailedReasoning : Str)
deriving DecidableEq

structure Response where
  status : Nat
  body : Body
deriving DecidableEq

structure PipelineEnv where
  yt : YTEnv
  ai : AIEnv
  tmdb : TMDBEnv
  providers : Int → ProvidersResp
  similar : Int → SimilarResp

/-- One resolution task of the fan-out: resolve the candidate's title,
attach the ranker's narrative to the movie's reasoning field, and pair
it with the candidate's confidence and reasons; `none` models the task
resolving to `null`. -/
def resolveOne (tmdb : TMDBEnv) (reasoning : Str) (m : CandidateMatch) :
    Except TmdbError (Option MovieMatch) :=
  match getMovieFromTMDB tmdb m.movieTitle with
  | .error e => .error e
  | .ok none => .ok none
  | .ok (some mv) =>
    .ok (some { movie := { mv with aiReasoning := reasoning }
                confidence := m.confidence
                matchReasons := m.reasons })

/-- `Promise.all` over the resolution tasks: any rejection rejects the
whole stage, otherwise the results in candidate order. -/
def resolveAll (tmdb : TMDBEnv) (reasoning : Str) :
    List CandidateMatch → Except TmdbError (List (Option MovieMatch))
  | [] => .ok []
  | m :: ms =>
    match resolveOne tmdb reasoning m with
    | .error e => .error e
    | .ok o =>
      match resolveAll tmdb reasoning ms with
      | .error e => .error e
      | .ok os => .ok (o :: os)

/-- `(await Promise.all(moviePromises)).filter(m => m !== null)`. -/
def resolveMatches (tmdb : TMDBEnv) (reasoning : Str) (ms : List CandidateMatch) :
    Except TmdbError (List MovieMatch) :=
  match resolveAll tmdb reasoning ms with
  | .error e => .error e
  | .ok os => .ok (os.filterMap id)

/-- `aiResult.matches[0]?.movieTitle`: on an empty list the expression
is `undefined`, which string concatenation renders as "undefined". -/
def firstSuggested : List CandidateMatch → Str
  | [] => "undefined".data
  | m :: _ => m.movieTitle

def notFoundMessage (ms : List CandidateMatch) : Str :=
  "Could not find movie information. The AI suggested: ".data ++ firstSuggested ms

/-- The `serve` handler of `part_002` after transport unwrapping:
fail fast on a missing/empty or unparseable URL (400), aggregate
metadata, rank (failures map to a 500 with the thrown message), resolve
all candidates concurrently (a rejection maps to a 500), answer 404
with the top suggestion and narrative when nothing resolves, else
return the first surviving match as best, with enrichment fetched for
it only. -/
def handleRequest (env : PipelineEnv) (videoUrl : Option Str) : Response :=
  match videoUrl with
  | none => ⟨400, .err "Video URL is required".data none⟩
  | some url =>
    if url.isEmpty then ⟨400, .err "Video URL is required".data none⟩
    else
      match extractVideoId url with
      | none =>
        ⟨400, .err "Invalid YouTube URL. Please provide a valid YouTube video link.".data none⟩
      | some videoId =>
        let metadata := getYouTubeMetadata env.yt videoId
        match identifyMoviesWithAI env.ai with
        | .error e => ⟨500, .err e.message none⟩
        | .ok aiResult =>
          match resolveMatches env.tmdb aiResult.detailedReasoning aiResult.matches' with
          | .error e => ⟨500, .err e.message none⟩
          | .ok [] =>
            ⟨404, .err (notFoundMessage aiResult.matches') (some aiResult.detailedReasoning)⟩
          | .ok (best :: rest) =>
            ⟨200, .success best.movie metadata.thumbnail (best :: rest)
              (getStreamingProviders env.tmdb.hasKey (env.providers best.movie.tmdbId))
              (getSimilarMovies env.tmdb.hasKey (env.similar best.movie.tmdbId))
              aiResult.detailedReasoning⟩

/-! ### C2: resolution preserves ranker order -/

/-- `Except.isOk` (the success discriminator). -/
def isOkE {ε α : Type} : Except ε α → Bool
  | .ok _ => true
  | .error _ => false

/-- The value one resolution task settles with, when resolution does not
reject (total form of `resolveOne`). -/
def resolveOneT (tmdb : TMDBEnv) (reasoning : Str) (m : CandidateMatch) : Option MovieMatch :=
  match getMovieFromTMDB tmdb m.movieTitle with
  | .ok (some mv) =>
    some { movie := { mv with aiReasoning := reasoning }
           confidence := m.confidence
           matchReasons := m.reasons }
  | _ => none

/-- Catalog detail records for the C2/C3 witnesses. -/
def detailsST : TMDBDetails :=
  { title := "Star Trek".data
    release_date := some "2009-05-06".data
    poster_path := some "/st.jpg".data
    overview := some "Kirk and Spock.".data
    vote_average := some 8
    runtime := some 127
    genres := some ["Science Fiction".data]
    videos := some []
    id := 13475 }

def detailsDune : TMDBDetails :=
  { title := "Dune".data
    release_date := some "2021-09-15".data
    poster_path := some "/d.jpg".data
    overview := some "Arrakis.".data
    vote_average := some 8
    runtime := some 155
    genres := some ["Science Fiction".data]
    videos := some []
    id := 438631 }

/-- A catalog in which "Star Wars" misses and "Star Trek"/"Dune" hit. -/
def partialTmdb : TMDBEnv :=
  { hasKey := true
    search := fun t =>
      if t == "Star Trek".data then .resp true [⟨13475⟩]
      else if t == "Dune".data then .resp true [⟨438631⟩]
      else .resp true []
    details := fun i =>
      if i == (13475 : Int) then .resp true detailsST else .resp true detailsDune }

def emptySimilarResp : SimilarResp := { ok := false, results := [] }

def goodAIEnv : AIEnv :=
  { hasKey := true, httpStatus := 200, content := some { parsed := some goodRankPayload } }

def partialEnv : PipelineEnv :=
  { yt := deadYTEnv
    ai := goodAIEnv
    tmdb := partialTmdb
    providers := fun _ => failedProvResp
    similar := fun _ => emptySimilarResp }

def matchST : MovieMatch :=
  { movie := { buildMovieResult detailsST with aiReasoning := goodRankPayload.detailedReasoning }
    confidence := 15
    matchReasons := ["space scene".data, "era".data] }

def matchDune : MovieMatch :=
  { movie := { buildMovieResult detailsDune with aiReasoning := goodRankPayload.detailedReasoning }
    confidence := 5
    matchReasons := ["desert".data, "tone".data] }

/-- A catalog that finds nothing for any title. -/
def missTmdb : TMDBEnv :=
  { hasKey := true
    search := fun _ => .resp true []
    details := fun _ => .threw }

def missEnv : PipelineEnv :=
  { yt := deadYTEnv
    ai := goodAIEnv
    tmdb := missTmdb
    providers := fun _ => failedProvResp
    similar := fun _ => emptySimilarResp }

/-! ### C4: propagation policy -/

/-- A catalog environment with no API key configured. -/
def noKeyTmdb : TMDBEnv :=
  { hasKey := false
    search := fun _ => .resp true []
    details := fun _ => .threw }

def noKeyEnv : PipelineEnv :=
  { yt := deadYTEnv
    ai := goodAIEnv
    tmdb := noKeyTmdb
    providers := fun _ => failedProvResp
    similar := fun _ => emptySimilarResp }

/-! ### Lemmas about the matching machinery -/

theorem isPrefixOf_append_self (p r : Str) : p.isPrefixOf (p ++ r) = true := by
  induction p with
  | nil => simp [List.isPrefixOf]
  | cons c cs ih => simp [List.isPrefixOf, ih]

theorem takeWhile_append_of_all (X b : Str) (p : Char → Bool) (h : ∀ c ∈ X, p c = true) :
    (X ++ b).takeWhile p = X ++ b.takeWhile p := by
  induction X with
  | nil => rfl
  | cons c cs ih =>
    have hc : p c = true := h c (by simp)
    simp [List.takeWhile, hc]
    exact ih (fun d hd => h d (by simp [hd]))

/-- At the position where one of the literal triggers starts, the
corresponding alternative captures exactly the identifier `X` when `X`
is a nonempty delimiter-free run and the rest of the URL is empty or
starts with a delimiter. -/
theorem tryAlt_append (t X b : Str) (hX : X ≠ [])
    (hnd : ∀ c ∈ X, delim c = false)
    (hb : b.takeWhile (fun c => !(delim c)) = []) :
    tryAlt t (t ++ (X ++ b)) = some X := by
  unfold tryAlt
  rw [isPrefixOf_append_self, List.drop_left,
    takeWhile_append_of_all X b _ (fun c hc => by simp [hnd c hc]), hb, List.append_nil]
  cases X with
  | nil => exact absurd rfl hX
  | cons a as => rfl

theorem matchAlts_watch (X b : Str) (hX : X ≠ []) (hnd : ∀ c ∈ X, delim c = false)
    (hb : b.takeWhile (fun c => !(delim c)) = []) :
    matchAlts pattern1Alts ("youtube.com/watch?v=".data ++ (X ++ b)) = some X := by
  have h1 := tryAlt_append "youtube.com/watch?v=".data X b hX hnd hb
  simp only [pattern1Alts, matchAlts, h1]

theorem matchAlts_be (X b : Str) (hX : X ≠ []) (hnd : ∀ c ∈ X, delim c = false)
    (hb : b.takeWhile (fun c => !(delim c)) = []) :
    matchAlts pattern1Alts ("youtu.be/".data ++ (X ++ b)) = some X := by
  have h1 : tryAlt "youtube.com/watch?v=".data ("youtu.be/".data ++ (X ++ b)) = none := rfl
  have h2 := tryAlt_append "youtu.be/".data X b hX hnd hb
  simp only [pattern1Alts, matchAlts, h1, h2]

theorem matchAlts_embed (X b : Str) (hX : X ≠ []) (hnd : ∀ c ∈ X, delim c = false)
    (hb : b.takeWhile (fun c => !(delim c)) = []) :
    matchAlts pattern1Alts ("youtube.com/embed/".data ++ (X ++ b)) = some X := by
  have h1 : tryAlt "youtube.com/watch?v=".data ("youtube.com/embed/".data ++ (X ++ b)) = none :=
    rfl
  have h2 : tryAlt "youtu.be/".data ("youtube.com/embed/".data ++ (X ++ b)) = none := rfl
  have h3 := tryAlt_append "youtube.com/embed/".data X b hX hnd hb
  simp only [pattern1Alts, matchAlts, h1, h2, h3]

theorem matchAlts_v (X b : Str) (hX : X ≠ []) (hnd : ∀ c ∈ X, delim c = false)
    (hb : b.takeWhile (fun c => !(delim c)) = []) :
    matchAlts pattern1Alts ("youtube.com/v/".data ++ (X ++ b)) = some X := by
  have h1 : tryAlt "youtube.com/watch?v=".data ("youtube.com/v/".data ++ (X ++ b)) = none := rfl
  have h2 : tryAlt "youtu.be/".data ("youtube.com/v/".data ++ (X ++ b)) = none := rfl
  have h3 : tryAlt "youtube.com/embed/".data ("youtube.com/v/".data ++ (X ++ b)) = none := rfl
  have h4 := tryAlt_append "youtube.com/v/".data X b hX hnd hb
  simp only [pattern1Alts, matchAlts, h1, h2, h3, h4]

theorem matchAlts_shorts (X b : Str) (hX : X ≠ []) (hnd : ∀ c ∈ X, delim c = false)
    (hb : b.takeWhile (fun c => !(delim c)) = []) :
    matchAlts pattern2Alts ("youtube.com/shorts/".data ++ (X ++ b)) = some X := by
  have h1 := tryAlt_append "youtube.com/shorts/".data X b hX hnd hb
  simp only [pattern2Alts, matchAlts, h1]

theorem scanFor_of_some (alts : List Str) (s v : Str)
    (h : matchAlts alts s = some v) : scanFor alts s = some v := by
  cases s with
  | nil => simpa [scanFor] using h
  | cons c rest => simp [scanFor, h]

/-- A leftmost-match scan skips over a region in which no alternative
matches at any position. -/
theorem scanFor_append_of_none (alts : List Str) (a s : Str)
    (h : ∀ i, i < a.length → matchAlts alts ((a ++ s).drop i) = none) :
    scanFor alts (a ++ s) = scanFor alts s := by
  induction a with
  | nil => rfl
  | cons c a' ih =>
    have h0 : matchAlts alts (c :: (a' ++ s)) = none := by
      simpa using h 0 (by simp)
    show scanFor alts (c :: (a' ++ s)) = scanFor alts s
    rw [scanFor, h0]
    exact ih (fun i hi => by simpa using h (i + 1) (by simpa using Nat.succ_lt_succ hi))

theorem scanFor_none_of_bounded (alts : List Str) (s : Str)
    (h : ∀ i, i < s.length → matchAlts alts (s.drop i) = none)
    (h2 : matchAlts alts [] = none) : scanFor alts s = none := by
  induction s with
  | nil => simpa [scanFor] using h2
  | cons c rest ih =>
    have h0 : matchAlts alts (c :: rest) = none := by simpa using h 0 (by simp)
    rw [scanFor, h0]
    exact ih (fun i hi => by simpa using h (i + 1) (by simpa using Nat.succ_lt_succ hi))

theorem scanFor_pair_none (s : Str) (h : containsUrlPattern s = false) :
    scanFor pattern1Alts s = none ∧ scanFor pattern2Alts s = none := by
  induction s with
  | nil => exact ⟨by decide, by decide⟩
  | cons c rest ih =>
    rw [containsUrlPattern] at h
    cases h1 : matchAlts pattern1Alts (c :: rest) with
    | some v => simp [h1] at h
    | none =>
      cases h2 : matchAlts pattern2Alts (c :: rest) with
      | some v => simp [h1, h2] at h
      | none =>
        obtain ⟨r1, r2⟩ := ih (by simpa [h1, h2] using h)
        exact ⟨by rw [scanFor, h1]; exact r1, by rw [scanFor, h2]; exact r2⟩

theorem takeWhile_delim_of_head (b : Str)
    (hb : b = [] ∨ ∃ c bs, b = c :: bs ∧ delim c = true) :
    b.takeWhile (fun c => !(delim c)) = [] := by
  rcases hb with rfl | ⟨c, bs, rfl, hc⟩
  · rfl
  · simp [List.takeWhile, hc]

/-- C1 (amended): the extractor recognizes five URL forms — the four
named ones (standard watch link, shortened youtu.be link, embed link,
shorts link) and additionally the legacy `youtube.com/v/` form, which
the code's first regex carries as a fifth alternative.  For every
string containing one of the five forms with identifier `X`,
`extractVideoId` returns `X`; for every string containing none of the
five patterns it returns the not-found signal `none`.  The five
positive conjuncts quantify over an arbitrary leading context `a` and
trailing context `b`: the identifier `X` must be a nonempty run free of
the delimiter characters `&`, newline, `?`, `#`, the trailing context
must be empty or start with a delimiter, and (since the source
extractor returns the first, i.e. leftmost, regex match) no alternative
may match at a position strictly before the URL form — and, for the
shorts form, the first regex must match nowhere at all, because the
source tries the whole first regex before the shorts regex.  The sixth
conjunct is the negative direction.  "Never throws" is reflected by
`extractVideoId` being a total function: every branch of the source
returns a value, and the embedding has no failure monad. -/
theorem extractVideoId_spec :
    (∀ a X b : Str,
      (∀ i, i < a.length →
        matchAlts pattern1Alts ((a ++ ("youtube.com/watch?v=".data ++ (X ++ b))).drop i) = none) →
      X ≠ [] → (∀ c ∈ X, delim c = false) →
      (b = [] ∨ ∃ c bs, b = c :: bs ∧ delim c = true) →
      extractVideoId (a ++ ("youtube.com/watch?v=".data ++ (X ++ b))) = some X) ∧
    (∀ a X b : Str,
      (∀ i, i < a.length →
        matchAlts pattern1Alts ((a ++ ("youtu.be/".data ++ (X ++ b))).drop i) = none) →
      X ≠ [] → (∀ c ∈ X, delim c = false) →
      (b = [] ∨ ∃ c bs, b = c :: bs ∧ delim c = true) →
      extractVideoId (a ++ ("youtu.be/".data ++ (X ++ b))) = some X) ∧
    (∀ a X b : Str,
      (∀ i, i < a.length →
        matchAlts pattern1Alts ((a ++ ("youtube.com/embed/".data ++ (X ++ b))).drop i) = none) →
      X ≠ [] → (∀ c ∈ X, delim c = false) →
      (b = [] ∨ ∃ c bs, b = c :: bs ∧ delim c = true) →
      extractVideoId (a ++ ("youtube.com/embed/".data ++ (X ++ b))) = some X) ∧
    (∀ a X b : Str,
      (∀ i, i < a.length →
        matchAlts pattern1Alts ((a ++ ("youtube.com/v/".data ++ (X ++ b))).drop i) = none) →
      X ≠ [] → (∀ c ∈ X, delim c = false) →
      (b = [] ∨ ∃ c bs, b = c :: bs ∧ delim c = true) →
      extractVideoId (a ++ ("youtube.com/v/".data ++ (X ++ b))) = some X) ∧
    (∀ a X b : Str,
      (∀ i, i < (a ++ ("youtube.com/shorts/".data ++ (X ++ b))).length →
        matchAlts pattern1Alts ((a ++ ("youtube.com/shorts/".data ++ (X ++ b))).drop i) = none) →
      (∀ i, i < a.length →
        matchAlts pattern2Alts ((a ++ ("youtube.com/shorts/".data ++ (X ++ b))).drop i) = none) →
      X ≠ [] → (∀ c ∈ X, delim c = false) →
      (b = [] ∨ ∃ c bs, b = c :: bs ∧ delim c = true) →
      extractVideoId (a ++ ("youtube.com/shorts/".data ++ (X ++ b))) = some X) ∧
    (∀ s : Str, containsUrlPattern s = false → extractVideoId s = none) := by
  refine ⟨?_, ?_, ?_, ?_, ?_, ?_⟩
  · intro a X b h hX hnd hb
    have hs : scanFor pattern1Alts (a ++ ("youtube.com/watch?v=".data ++ (X ++ b))) = some X := by
      rw [scanFor_append_of_none _ _ _ h]
      exact scanFor_of_some _ _ _ (matchAlts_watch X b hX hnd (takeWhile_delim_of_head b hb))
    simp only [extractVideoId, hs]
  · intro a X b h hX hnd hb
    have hs : scanFor pattern1Alts (a ++ ("youtu.be/".data ++ (X ++ b))) = some X := by
      rw [scanFor_append_of_none _ _ _ h]
      exact scanFor_of_some _ _ _ (matchAlts_be X b hX hnd (takeWhile_delim_of_head b hb))
    simp only [extractVideoId, hs]
  · intro a X b h hX hnd hb
    have hs : scanFor pattern1Alts (a ++ ("youtube.com/embed/".data ++ (X ++ b))) = some X := by
      rw [scanFor_append_of_none _ _ _ h]
      exact scanFor_of_some _ _ _ (matchAlts_embed X b hX hnd (takeWhile_delim_of_head b hb))
    simp only [extractVideoId, hs]
  · intro a X b h hX hnd hb
    have hs : scanFor pattern1Alts (a ++ ("youtube.com/v/".data ++ (X ++ b))) = some X := by
      rw [scanFor_append_of_none _ _ _ h]
      exact scanFor_of_some _ _ _ (matchAlts_v X b hX hnd (takeWhile_delim_of_head b hb))
    simp only [extractVideoId, hs]
  · intro a X b h1 h2 hX hnd hb
    have hs1 : scanFor pattern1Alts (a ++ ("youtube.com/shorts/".data ++ (X ++ b))) = none :=
      scanFor_none_of_bounded _ _ h1 (by decide)
    have hs2 : scanFor pattern2Alts (a ++ ("youtube.com/shorts/".data ++ (X ++ b))) = some X := by
      rw [scanFor_append_of_none _ _ _ h2]
      exact scanFor_of_some _ _ _ (matchAlts_shorts X b hX hnd (takeWhile_delim_of_head b hb))
    simp only [extractVideoId, hs1, hs2]
  · intro s h
    obtain ⟨r1, r2⟩ := scanFor_pair_none s h
    simp only [extractVideoId, r1, r2]

/-- Counterexample to C1 as stated: `"https://www.youtube.com/v/abc123"`
contains none of the four named URL forms (decidably, no position of it
matches the watch, youtu.be, embed or shorts pattern), yet
`extractVideoId` returns `some "abc123"` rather than the not-found
signal, through the code's fifth `youtube.com/v/` alternative. -/
theorem extractVideoId_spec_cex :
    containsNamedUrlPattern "https://www.youtube.com/v/abc123".data = false ∧
    extractVideoId "https://www.youtube.com/v/abc123".data = some "abc123".data :=
  ⟨by decide, by decide⟩

/-- Witness for C1 (amended): concrete instances of all six conjuncts. -/
theorem extractVideoId_spec_witness :
    extractVideoId "https://www.youtube.com/watch?v=dQw4w9WgXcQ".data = some "dQw4w9WgXcQ".data ∧
    extractVideoId "https://youtu.be/abc123?t=10".data = some "abc123".data ∧
    extractVideoId "https://www.youtube.com/embed/xYz9".data = some "xYz9".data ∧
    extractVideoId "https://www.youtube.com/v/vId9".data = some "vId9".data ∧
    extractVideoId "https://www.youtube.com/shorts/s0rtId".data = some "s0rtId".data ∧
    extractVideoId "just some text with no video link at all".data = none := by
  refine ⟨?_, ?_, ?_, ?_, ?_, ?_⟩
  · simpa using extractVideoId_spec.1 "https://www.".data "dQw4w9WgXcQ".data []
      (by decide) (by decide) (by decide) (Or.inl rfl)
  · simpa using extractVideoId_spec.2.1 "https://".data "abc123".data "?t=10".data
      (by decide) (by decide) (by decide) (Or.inr ⟨'?', "t=10".data, rfl, by decide⟩)
  · simpa using extractVideoId_spec.2.2.1 "https://www.".data "xYz9".data []
      (by decide) (by decide) (by decide) (Or.inl rfl)
  · simpa using extractVideoId_spec.2.2.2.1 "https://www.".data "vId9".data []
      (by decide) (by decide) (by decide) (Or.inl rfl)
  · simpa using extractVideoId_spec.2.2.2.2.1 "https://www.".data "s0rtId".data []
      (by decide) (by decide) (by decide) (by decide) (Or.inl rfl)
  · exact extractVideoId_spec.2.2.2.2.2 _ (by decide)

/-- C5: For every input list of comment strings, the Signal Extractor's
keyword output contains at most 10 elements, regardless of the number or
size of the comments: the source ends with `Array.from(keywords).slice(0, 10)`. -/
theorem extractKeywords_at_most_ten (comments : List Str) :
    (extractKeywordsFromComments comments).length ≤ 10 := by
  simp only [extractKeywordsFromComments]
  simp [List.length_take]

/-- C6: With comment text containing "This is from The Matrix" literally
twice, the Signal Extractor's output contains a variant of "the matrix"
(here: exactly the keyword "the matrix", produced both by the
phrase-pattern heuristic and by the Title-Case frequency heuristic,
which sees "The Matrix" twice).  A two-word capitalized phrase ("Blade
Runner") occurring only once and matching none of the phrase patterns is
not included — the frequency heuristic requires at least 2 occurrences —
while the same phrase occurring twice is included, lower-cased. -/
theorem extractKeywords_matrix_fixture :
    extractKeywordsFromComments
        ["This is from The Matrix.".data, "This is from The Matrix.".data] =
      ["the matrix".data] ∧
    extractKeywordsFromComments ["I watched Blade Runner yesterday".data] = [] ∧
    extractKeywordsFromComments
        ["I watched Blade Runner yesterday".data, "Blade Runner is great".data] =
      ["blade runner".data] := by
  refine ⟨by decide, by decide, by decide⟩

/-- Counterexample to C7: a successful Candidate Ranker call whose
result has 1 candidate (not 3) with confidence 150 (outside [1,100])
and 5 reasons (outside 2..4) — the parser performs no validation, so
the claimed guarantee does not hold of the code. -/
theorem ranker_validation_cex :
    identifyMoviesWithAI
        { hasKey := true, httpStatus := 200, content := some { parsed := some badRankPayload } } =
      .ok badRankPayload ∧
    badRankPayload.matches'.length ≠ 3 ∧
    (∃ m ∈ badRankPayload.matches',
      ¬(1 ≤ m.confidence ∧ m.confidence ≤ 100) ∧
      ¬(2 ≤ m.reasons.length ∧ m.reasons.length ≤ 4)) := by
  exact ⟨rfl, by decide, by decide⟩

/-- C7 (amended): A successful Candidate Ranker call returns the
model's matches and narrative exactly as parsed, with no validation of
candidate count, confidence range, or reason count; the fixed prompt
instructs exactly 3 best-first candidates with integer confidence 1–100
and 2–4 reasons each, but the code does not enforce the instruction. -/
theorem ranker_passthrough (env : AIEnv) (p : RankResult)
    (h1 : env.hasKey = true) (h2 : respOk env.httpStatus = true)
    (h3 : env.content = some { parsed := some p }) :
    identifyMoviesWithAI env = .ok p := by
  simp [identifyMoviesWithAI, h1, h2, h3]

/-- Witness for the amended C7 at a contract-conforming reply. -/
theorem ranker_passthrough_witness :
    identifyMoviesWithAI
        { hasKey := true, httpStatus := 200, content := some { parsed := some goodRankPayload } } =
      .ok goodRankPayload :=
  ranker_passthrough _ goodRankPayload rfl (by decide) rfl

/-- C10: a catalog detail record whose numeric rating is exactly 0 is
reported as "N/A" (not "0.0") and a runtime of exactly 0 as "Unknown"
(not "0 min"), because `details.vote_average ? … : …` and
`details.runtime ? … : …` treat 0 as falsy — the same degraded values
used when the fields are absent. -/
theorem falsy_zero_rating_runtime (d : TMDBDetails) :
    ((d.vote_average = some 0 ∨ d.vote_average = none) →
      (buildMovieResult d).rating = "N/A".data) ∧
    ((d.runtime = some 0 ∨ d.runtime = none) →
      (buildMovieResult d).runtime = "Unknown".data) := by
  constructor
  · rintro (h | h) <;> simp [buildMovieResult, h]
  · rintro (h | h) <;> simp [buildMovieResult, h]

/-- Witness for C10. -/
theorem falsy_zero_rating_runtime_witness :
    (buildMovieResult zeroDetails).rating = "N/A".data ∧
    (buildMovieResult zeroDetails).runtime = "Unknown".data :=
  ⟨(falsy_zero_rating_runtime zeroDetails).1 (Or.inl rfl),
   (falsy_zero_rating_runtime zeroDetails).2 (Or.inl rfl)⟩

theorem foldl_addProvider_append (link : Str) (ty : PType) :
    ∀ (ps : List ProviderEntry) (acc : List StreamingProvider),
      ∃ δ : List StreamingProvider,
        ps.foldl (addProvider link ty) acc = acc ++ δ ∧
        δ.length ≤ ps.length ∧ ∀ e ∈ δ, e.type = ty := by
  intro ps
  induction ps with
  | nil => exact fun acc => ⟨[], by simp⟩
  | cons p ps ih =>
    intro acc
    rw [List.foldl_cons]
    by_cases hc : ((acc.map (fun q => q.name)).contains p.provider_name) = true
    · have he : addProvider link ty acc p = acc := by
        unfold addProvider
        rw [if_pos hc]
      rw [he]
      obtain ⟨δ, h1, h2, h3⟩ := ih acc
      exact ⟨δ, h1, Nat.le_succ_of_le h2, h3⟩
    · have he : addProvider link ty acc p =
          acc ++ [{ name := p.provider_name
                    logo := "https://image.tmdb.org/t/p/original".data ++ p.logo_path
                    link := link
                    type := ty }] := by
        unfold addProvider
        rw [if_neg hc]
      rw [he]
      obtain ⟨δ, h1, h2, h3⟩ := ih (acc ++ [{ name := p.provider_name
                                              logo := "https://image.tmdb.org/t/p/original".data ++ p.logo_path
                                              link := link
                                              type := ty }])
      refine ⟨{ name := p.provider_name
                logo := "https://image.tmdb.org/t/p/original".data ++ p.logo_path
                link := link
                type := ty } :: δ, ?_, by simpa using Nat.succ_le_succ h2, ?_⟩
      · rw [h1, List.append_assoc]
        rfl
      · intro e he'
        rw [List.mem_cons] at he'
        rcases he' with rfl | hmem
        · rfl
        · exact h3 e hmem

theorem foldl_addProvider_nodup (link : Str) (ty : PType) :
    ∀ (ps : List ProviderEntry) (acc : List StreamingProvider),
      (acc.map (fun q => q.name)).Nodup →
      ((ps.foldl (addProvider link ty) acc).map (fun q => q.name)).Nodup := by
  intro ps
  induction ps with
  | nil => exact fun acc h => h
  | cons p ps ih =>
    intro acc h
    rw [List.foldl_cons]
    by_cases hc : ((acc.map (fun q => q.name)).contains p.provider_name) = true
    · rw [show addProvider link ty acc p = acc from by unfold addProvider; rw [if_pos hc]]
      exact ih acc h
    · have hmem : p.provider_name ∉ acc.map (fun q => q.name) := by
        intro hm
        apply hc
        simp only [List.mem_map] at hm
        obtain ⟨x, hx, hn⟩ := hm
        simp
        exact ⟨x, hx, hn⟩
      rw [show addProvider link ty acc p =
          acc ++ [{ name := p.provider_name
                    logo := "https://image.tmdb.org/t/p/original".data ++ p.logo_path
                    link := link
                    type := ty }] from by unfold addProvider; rw [if_neg hc]]
      apply ih
      rw [List.map_append]
      refine List.Nodup.append h (by simp) ?_
      intro a ha hb
      simp at hb
      subst hb
      exact hmem ha

theorem buildProviders_caps (rd : RegionData) :
    (buildProviders rd).length ≤ 6 ∧
    ((buildProviders rd).filter (fun e => e.type == PType.subscription)).length ≤ 4 ∧
    ((buildProviders rd).filter (fun e => e.type == PType.rent)).length ≤ 2 ∧
    ((buildProviders rd).map (fun q => q.name)).Nodup := by
  obtain ⟨δ1, e1, l1, t1⟩ := foldl_addProvider_append (rd.link.getD []) .subscription
    ((rd.flatrate.getD []).take 4) []
  rw [List.nil_append] at e1
  obtain ⟨δ2, e2, l2, t2⟩ := foldl_addProvider_append (rd.link.getD []) .rent
    ((rd.rent.getD []).take 2)
    (((rd.flatrate.getD []).take 4).foldl (addProvider (rd.link.getD []) .subscription) [])
  rw [e1] at e2
  have hb : buildProviders rd = (δ1 ++ δ2).take 6 := by
    simp only [buildProviders]
    rw [e1, e2]
  have hl1 : δ1.length ≤ 4 := le_trans l1 (by simp [List.length_take])
  have hl2 : δ2.length ≤ 2 := le_trans l2 (by simp [List.length_take])
  have hnd : ((δ1 ++ δ2).map (fun q => q.name)).Nodup := by
    have hstep := foldl_addProvider_nodup (rd.link.getD []) .rent
      ((rd.rent.getD []).take 2)
      (((rd.flatrate.getD []).take 4).foldl (addProvider (rd.link.getD []) .subscription) [])
      (foldl_addProvider_nodup (rd.link.getD []) .subscription
        ((rd.flatrate.getD []).take 4) [] (by simp))
    rw [e1, e2] at hstep
    exact hstep
  refine ⟨?_, ?_, ?_, ?_⟩
  · rw [hb]
    simp [List.length_take]
  · rw [hb]
    have hz : δ2.filter (fun e => e.type == PType.subscription) = [] := by
      rw [List.filter_eq_nil_iff]
      intro e he
      simp [t2 e he]
    have hfil : ((δ1 ++ δ2).filter (fun e => e.type == PType.subscription)).length ≤ 4 := by
      rw [List.filter_append, hz, List.append_nil]
      exact le_trans (List.length_filter_le _ _) hl1
    exact le_trans (List.Sublist.length_le ((List.take_sublist 6 _).filter _)) hfil
  · rw [hb]
    have hz : δ1.filter (fun e => e.type == PType.rent) = [] := by
      rw [List.filter_eq_nil_iff]
      intro e he
      simp [t1 e he]
    have hfil : ((δ1 ++ δ2).filter (fun e => e.type == PType.rent)).length ≤ 2 := by
      rw [List.filter_append, hz, List.nil_append]
      exact le_trans (List.length_filter_le _ _) hl2
    exact le_trans (List.Sublist.length_le ((List.take_sublist 6 _).filter _)) hfil
  · rw [hb]
    exact List.Nodup.sublist ((List.take_sublist 6 _).map _) hnd

/-- C8 (theorem): the streaming-provider enrichment returns at most 6
entries, at most 4 of subscription type, at most 2 of rent type,
deduplicated by provider name; a failed fetch or missing region data
yields `[]` rather than a failure (the function is total). -/
theorem getStreamingProviders_spec (hasKey : Bool) (resp : ProvidersResp) :
    (getStreamingProviders hasKey resp).length ≤ 6 ∧
    ((getStreamingProviders hasKey resp).filter
      (fun e => e.type == PType.subscription)).length ≤ 4 ∧
    ((getStreamingProviders hasKey resp).filter
      (fun e => e.type == PType.rent)).length ≤ 2 ∧
    ((getStreamingProviders hasKey resp).map (fun q => q.name)).Nodup ∧
    (resp.ok = false → getStreamingProviders hasKey resp = []) ∧
    (resp.region = none → getStreamingProviders hasKey resp = []) := by
  cases hasKey with
  | false => simp [getStreamingProviders]
  | true =>
    cases hok : resp.ok with
    | false => simp [getStreamingProviders, hok]
    | true =>
      cases hreg : resp.region with
      | none => simp [getStreamingProviders, hok, hreg]
      | some rd =>
        have hout : getStreamingProviders true resp = buildProviders rd := by
          simp [getStreamingProviders, hok, hreg]
        rw [hout]
        obtain ⟨c1, c2, c3, c4⟩ := buildProviders_caps rd
        exact ⟨c1, c2, c3, c4,
          fun h => Bool.noConfusion h,
          fun h => Option.noConfusion h⟩

/-- Witness for C8: the caps at a populated region record and the empty
result at a failed fetch. -/
theorem getStreamingProviders_spec_witness :
    (getStreamingProviders true sampleProvResp).length ≤ 6 ∧
    ((getStreamingProviders true sampleProvResp).map (fun q => q.name)).Nodup ∧
    getStreamingProviders true failedProvResp = [] :=
  ⟨(getStreamingProviders_spec true sampleProvResp).1,
   (getStreamingProviders_spec true sampleProvResp).2.2.2.1,
   (getStreamingProviders_spec true failedProvResp).2.2.2.2.1 rfl⟩

/-- C9: the Metadata Aggregator is total — it always produces a
`YouTubeMetadata` — and degrades along the fallback chain: whenever the
primary credentialed lookup is unavailable (no API key) or fails
(rejected fetch, non-ok response, or no items), the result is exactly
the fallback path's result; and whenever the public oEmbed fallback
also fails, the result is the all-empty record in which only the
conventionally-constructed thumbnail URL is populated. -/
theorem metadata_fallback_chain (env : YTEnv) (videoId : Str) :
    ((env.apiKey = false ∨ env.videos = .threw ∨ env.videos = .notOk ∨ env.videos = .ok []) →
      getYouTubeMetadata env videoId = getYouTubeMetadataFallback env videoId) ∧
    ((env.oembed = .threw ∨ env.oembed = .notOk) →
      getYouTubeMetadataFallback env videoId =
        { title := []
          description := []
          thumbnail := thumbUrl videoId
          channelTitle := []
          publishedAt := []
          captionsAvailable := false
          captionsText := []
          commentKeywords := [] }) := by
  constructor
  · rintro (h | h | h | h) <;> simp [getYouTubeMetadata, h]
  · rintro (h | h) <;> simp [getYouTubeMetadataFallback, h]

/-- Witness for C9. -/
theorem metadata_fallback_chain_witness :
    getYouTubeMetadata deadYTEnv "abc123".data =
      getYouTubeMetadataFallback deadYTEnv "abc123".data ∧
    getYouTubeMetadataFallback deadYTEnv "abc123".data =
      { title := []
        description := []
        thumbnail := thumbUrl "abc123".data
        channelTitle := []
        publishedAt := []
        captionsAvailable := false
        captionsText := []
        commentKeywords := [] } :=
  ⟨(metadata_fallback_chain deadYTEnv "abc123".data).1 (Or.inr (Or.inr (Or.inl rfl))),
   (metadata_fallback_chain deadYTEnv "abc123".data).2 (Or.inl rfl)⟩

theorem resolveAll_map (tmdb : TMDBEnv) (r : Str) :
    ∀ ms : List CandidateMatch,
      (∀ m ∈ ms, isOkE (getMovieFromTMDB tmdb m.movieTitle) = true) →
      resolveAll tmdb r ms = .ok (ms.map (resolveOneT tmdb r)) := by
  intro ms
  induction ms with
  | nil => intro _; rfl
  | cons m ms ih =>
    intro h
    have hm := h m (by simp)
    have h1 : resolveOne tmdb r m = .ok (resolveOneT tmdb r m) := by
      cases hg : getMovieFromTMDB tmdb m.movieTitle with
      | error e => rw [hg] at hm; exact absurd hm (by simp [isOkE])
      | ok o =>
        cases o with
        | none => simp [resolveOne, resolveOneT, hg]
        | some mv => simp [resolveOne, resolveOneT, hg]
    simp only [resolveAll]
    rw [h1, ih (fun x hx => h x (by simp [hx]))]
    rfl

/-- C2: catalog resolution preserves the ranked candidates' relative
order.  Part 1: when no resolution task rejects, the surviving
`MovieMatch` list is exactly the ranked candidate list filtered-mapped
in order by per-candidate resolution — resolution removes unresolved
entries and never reorders survivors (for ranked `[A,B,C]` with only
`B`, `C` resolving, the survivors are `[B',C']`; see the witness).
Part 2: the first surviving entry is taken as the best match — the
success response's movie is the head of the surviving list. -/
theorem resolution_preserves_order :
    (∀ (tmdb : TMDBEnv) (r : Str) (ms : List CandidateMatch),
      (∀ m ∈ ms, isOkE (getMovieFromTMDB tmdb m.movieTitle) = true) →
      resolveMatches tmdb r ms = .ok (ms.filterMap (resolveOneT tmdb r))) ∧
    (∀ (env : PipelineEnv) (url videoId : Str) (a : RankResult) (best : MovieMatch)
        (rest : List MovieMatch),
      url.isEmpty = false →
      extractVideoId url = some videoId →
      identifyMoviesWithAI env.ai = .ok a →
      resolveMatches env.tmdb a.detailedReasoning a.matches' = .ok (best :: rest) →
      handleRequest env (some url) =
        ⟨200, .success best.movie (getYouTubeMetadata env.yt videoId).thumbnail (best :: rest)
          (getStreamingProviders env.tmdb.hasKey (env.providers best.movie.tmdbId))
          (getSimilarMovies env.tmdb.hasKey (env.similar best.movie.tmdbId))
          a.detailedReasoning⟩) := by
  constructor
  · intro tmdb r ms h
    simp only [resolveMatches]
    rw [resolveAll_map tmdb r ms h]
    simp [List.filterMap_map]
  · intro env url videoId a best rest h1 h2 h3 h4
    simp [handleRequest, h1, h2, h3, h4]

/-- Witness for C2: the ranker returns [Star Wars, Star Trek, Dune],
only the last two resolve, and the survivors keep that order with Star
Trek (the first survivor) as best match of the 200 response. -/
theorem resolution_preserves_order_witness :
    resolveMatches partialTmdb goodRankPayload.detailedReasoning goodRankPayload.matches' =
      .ok (goodRankPayload.matches'.filterMap
        (resolveOneT partialTmdb goodRankPayload.detailedReasoning)) ∧
    (goodRankPayload.matches'.filterMap
        (resolveOneT partialTmdb goodRankPayload.detailedReasoning)).map
      (fun mm => mm.movie.title) = ["Star Trek".data, "Dune".data] ∧
    handleRequest partialEnv (some "https://youtu.be/abc123".data) =
      ⟨200, .success matchST.movie
        (getYouTubeMetadata partialEnv.yt "abc123".data).thumbnail [matchST, matchDune]
        (getStreamingProviders partialEnv.tmdb.hasKey (partialEnv.providers matchST.movie.tmdbId))
        (getSimilarMovies partialEnv.tmdb.hasKey (partialEnv.similar matchST.movie.tmdbId))
        goodRankPayload.detailedReasoning⟩ :=
  ⟨resolution_preserves_order.1 partialTmdb goodRankPayload.detailedReasoning
      goodRankPayload.matches' (by decide),
   by decide,
   resolution_preserves_order.2 partialEnv "https://youtu.be/abc123".data "abc123".data
      goodRankPayload matchST [matchDune] rfl rfl rfl rfl⟩

/-! ### C3: total resolution failure -/

theorem resolveAll_all_miss (tmdb : TMDBEnv) (r : Str) :
    ∀ ms : List CandidateMatch,
      (∀ c ∈ ms, getMovieFromTMDB tmdb c.movieTitle = .ok none) →
      resolveAll tmdb r ms = .ok (ms.map (fun _ => none)) := by
  intro ms
  induction ms with
  | nil => intro _; rfl
  | cons m ms ih =>
    intro h
    have h1 : resolveOne tmdb r m = .ok none := by
      simp [resolveOne, h m (by simp)]
    simp only [resolveAll]
    rw [h1, ih (fun x hx => h x (by simp [hx]))]
    rfl

theorem resolveMatches_all_miss (tmdb : TMDBEnv) (r : Str) (ms : List CandidateMatch)
    (h : ∀ c ∈ ms, getMovieFromTMDB tmdb c.movieTitle = .ok none) :
    resolveMatches tmdb r ms = .ok [] := by
  simp only [resolveMatches]
  rw [resolveAll_all_miss tmdb r ms h]
  have hfm : (ms.map (fun _ => (none : Option MovieMatch))).filterMap id = [] := by
    induction ms with
    | nil => rfl
    | cons m ms ih => simp [ih]
  show Except.ok ((ms.map (fun _ => (none : Option MovieMatch))).filterMap id) = Except.ok []
  rw [hfm]

/-- C3: when every ranked candidate fails to resolve (all catalog
resolutions return no match), the pipeline answers the distinguished
not-found condition — status 404, not the generic 400/500 failures —
whose error message is the fixed text followed by the first ranked
candidate's title, and which also carries the ranker's narrative
reasoning in the `aiReasoning` field. -/
theorem total_resolution_failure (env : PipelineEnv) (url videoId : Str)
    (m : CandidateMatch) (rest : List CandidateMatch) (a : RankResult)
    (hurl : url.isEmpty = false)
    (hextract : extractVideoId url = some videoId)
    (hai : identifyMoviesWithAI env.ai = .ok a)
    (hmatches : a.matches' = m :: rest)
    (hmiss : ∀ c ∈ a.matches', getMovieFromTMDB env.tmdb c.movieTitle = .ok none) :
    handleRequest env (some url) =
      ⟨404, .err ("Could not find movie information. The AI suggested: ".data ++ m.movieTitle)
        (some a.detailedReasoning)⟩ := by
  have hres := resolveMatches_all_miss env.tmdb a.detailedReasoning a.matches' hmiss
  rw [hmatches] at hres
  simp [handleRequest, hurl, hextract, hai, hres, notFoundMessage, firstSuggested, hmatches]

/-- Witness for C3: all three candidate titles return empty catalog
search results, and the 404 response surfaces "Star Wars" plus the
narrative. -/
theorem total_resolution_failure_witness :
    handleRequest missEnv (some "https://youtu.be/abc123".data) =
      ⟨404, .err ("Could not find movie information. The AI suggested: ".data ++
          "Star Wars".data)
        (some "The title names the film directly.".data)⟩ :=
  (total_resolution_failure missEnv "https://youtu.be/abc123".data "abc123".data
    candSW [candST, candDune] goodRankPayload rfl rfl rfl rfl
    (by intro c hc; fin_cases hc <;> rfl)).trans rfl

/-- C4 (amended): an error response arises only from: a missing or
empty URL field, an unparseable URL (both InputError, 400), a Candidate
Ranker failure (RankerError, 500, covering the missing gateway key,
rate-limit, billing, other non-success statuses, missing content and
malformed JSON), a rejection of the catalog-resolution stage (500 —
the missing catalog API key, or a catalog fetch whose promise rejects;
only completed non-ok catalog responses degrade to resolution misses),
or total resolution failure (the distinguished 404).  Every other
external failure (metadata, captions, comments, providers, similar
titles, individual resolution misses) degrades and the pipeline
continues. -/
theorem propagation_policy (env : PipelineEnv) (u : Option Str)
    (h : (handleRequest env u).status ≠ 200) :
    u = none ∨
    (∃ url, u = some url ∧ url.isEmpty = true) ∨
    (∃ url, u = some url ∧ extractVideoId url = none) ∨
    (∃ e, identifyMoviesWithAI env.ai = .error e) ∨
    (∃ a e, identifyMoviesWithAI env.ai = .ok a ∧
      resolveMatches env.tmdb a.detailedReasoning a.matches' = .error e) ∨
    (∃ a, identifyMoviesWithAI env.ai = .ok a ∧
      resolveMatches env.tmdb a.detailedReasoning a.matches' = .ok []) := by
  rcases u with _ | url
  · exact Or.inl rfl
  · cases hie : url.isEmpty with
    | true => exact Or.inr (Or.inl ⟨url, rfl, hie⟩)
    | false =>
      cases hev : extractVideoId url with
      | none => exact Or.inr (Or.inr (Or.inl ⟨url, rfl, hev⟩))
      | some vid =>
        cases hai : identifyMoviesWithAI env.ai with
        | error e => exact Or.inr (Or.inr (Or.inr (Or.inl ⟨e, rfl⟩)))
        | ok a =>
          cases hrm : resolveMatches env.tmdb a.detailedReasoning a.matches' with
          | error e => exact Or.inr (Or.inr (Or.inr (Or.inr (Or.inl ⟨a, e, rfl, hrm⟩))))
          | ok l =>
            cases l with
            | nil => exact Or.inr (Or.inr (Or.inr (Or.inr (Or.inr ⟨a, rfl, hrm⟩))))
            | cons b bs =>
              exfalso
              apply h
              simp [handleRequest, hie, hev, hai, hrm]

/-- Counterexample to C4 as stated: with a valid URL and a successful
ranker call, a missing catalog API key rejects the resolution stage and
propagates as a generic 500 ("TMDB_API_KEY is not configured") — a
failure that is neither an InputError (the URL parses) nor a
RankerError (the ranker succeeded) nor the distinguished 404. -/
theorem propagation_policy_cex :
    handleRequest noKeyEnv (some "https://youtu.be/abc123".data) =
      ⟨500, .err "TMDB_API_KEY is not configured".data none⟩ ∧
    extractVideoId "https://youtu.be/abc123".data = some "abc123".data ∧
    identifyMoviesWithAI noKeyEnv.ai = .ok goodRankPayload :=
  ⟨rfl, rfl, rfl⟩

/-- Witness for the amended C4 at the missing-catalog-key environment:
the 500 it produces falls under the resolution-stage-rejection case. -/
theorem propagation_policy_witness :
    (some "https://youtu.be/abc123".data : Option Str) = none ∨
    (∃ url, (some "https://youtu.be/abc123".data : Option Str) = some url ∧
      url.isEmpty = true) ∨
    (∃ url, (some "https://youtu.be/abc123".data : Option Str) = some url ∧
      extractVideoId url = none) ∨
    (∃ e, identifyMoviesWithAI noKeyEnv.ai = .error e) ∨
    (∃ a e, identifyMoviesWithAI noKeyEnv.ai = .ok a ∧
      resolveMatches noKeyEnv.tmdb a.detailedReasoning a.matches' = .error e) ∨
    (∃ a, identifyMoviesWithAI noKeyEnv.ai = .ok a ∧
      resolveMatches noKeyEnv.tmdb a.detailedReasoning a.matches' = .ok []) :=
  propagation_policy noKeyEnv (some "https://youtu.be/abc123".data) (by decide)

end ClipMovie
